import Mathlib

/-!
# Verification of the RW2_mods controller-support input core

A shallow embedding, in Lean 4, of the controller input pipeline of the
`controller_support` mod: configuration constants (`config.py`), the
debounced auto-repeat timer (`repeater.py`), device state with axis
auto-detection and edge-detection queries (`controller_state.py`), the
walk-target overlay (`walk_target.py`), the list browser (`browse.py`) and
the per-frame injection pipeline (`injection.py`).

Python floats (wall-clock times, axis readings) are modelled as rationals;
Python `int` as `Int`; Python dictionaries used as button maps as
association lists; `None` as `Option.none`.  Host interactions performed
through the view object (`view.try_move`, `view.play_sound`,
`view.choose_spell`, `view.try_examine_tile`, event injection) are recorded
in an explicit trace, so theorems can speak about which host operations a
call performs and in which order.
-/

namespace RW2

/-! ## config.py — tunable constants -/

def STICK_DEADZONE : ℚ := 25/100

def DIRECTION_THRESHOLD : ℚ := 15/100

def CURSOR_REPEAT_DELAY : ℚ := 30/100

def CURSOR_REPEAT_INTERVAL : ℚ := 10/100

def MOVE_REPEAT_DELAY : ℚ := 22/100

def MOVE_REPEAT_INTERVAL : ℚ := 12/100

def DEBOUNCE_TIME : ℚ := 7/100

def TRIGGER_THRESHOLD : ℚ := 3/10

namespace XboxButtons

def A : Nat := 0

def B : Nat := 1

def X : Nat := 2

def Y : Nat := 3

def LB : Nat := 4

def RB : Nat := 5

def BACK : Nat := 6

def START : Nat := 7

def L_STICK : Nat := 8

def R_STICK : Nat := 9

end XboxButtons

/-! ## repeater.py — DirectionRepeater -/

/-- State of one `DirectionRepeater` instance (`repeater.py`, `__init__`).
Times are the rational model of `time.time()` floats; `active_dir = none`
models Python `None`. -/
structure DirectionRepeater where
  initial_delay : ℚ
  repeat_interval : ℚ
  active_dir : Option (Int × Int)
  next_fire_time : ℚ
  fired_initial : Bool
  last_fire_time : ℚ
  release_time : ℚ
deriving DecidableEq, Repr

/-- The state built by `DirectionRepeater.__init__(initial_delay, repeat_interval)`. -/
def DirectionRepeater.init (initial_delay repeat_interval : ℚ) : DirectionRepeater :=
  { initial_delay := initial_delay
    repeat_interval := repeat_interval
    active_dir := none
    next_fire_time := 0
    fired_initial := false
    last_fire_time := 0
    release_time := 0 }

/-- Model of `DirectionRepeater.update(direction)` (`repeater.py` lines 27-63), with the
call time `now` (Python reads `time.time()`) passed explicitly.  Returns the
updated state together with the returned `events` list. -/
def DirectionRepeater.update (self : DirectionRepeater) (direction : Option (Int × Int))
    (now : ℚ) : DirectionRepeater × List (Int × Int) :=
  if direction = none ∨ direction = some (0, 0) then
    -- `if self.active_dir is not None: self.release_time = now`
    let s1 := if self.active_dir.isSome then { self with release_time := now } else self
    ({ s1 with active_dir := none, fired_initial := false }, [])
  else if now - self.last_fire_time < DEBOUNCE_TIME then
    -- Debounce: don't fire again too soon after the previous event
    (self, [])
  else if direction ≠ self.active_dir then
    if self.release_time > 0 ∧ now - self.release_time < DEBOUNCE_TIME then
      -- Suppress bounce-back through neutral within debounce window
      ({ self with active_dir := direction, fired_initial := true,
                   next_fire_time := now + self.initial_delay }, [])
    else
      -- Genuine new direction
      ({ self with active_dir := direction, fired_initial := true,
                   next_fire_time := now + self.initial_delay,
                   last_fire_time := now }, direction.toList)
  else if now ≥ self.next_fire_time then
    -- Repeat
    ({ self with next_fire_time := now + self.repeat_interval,
                 last_fire_time := now }, direction.toList)
  else
    (self, [])

/-- Run a sequence of `update` calls, one per input `(time, direction)` pair,
collecting the times of the calls that returned a non-empty event list. -/
def DirectionRepeater.runFires : DirectionRepeater → List (ℚ × Option (Int × Int)) → List ℚ
  | _, [] => []
  | self, (t, d) :: rest =>
    let r := self.update d t
    if r.2.isEmpty then r.1.runFires rest else t :: r.1.runFires rest

/-- Every `update` call either emits nothing and leaves `last_fire_time`
unchanged, or emits and then the call passed the debounce guard and stamped
`last_fire_time := now`. -/
lemma DirectionRepeater.update_fire_cases (self : DirectionRepeater)
    (d : Option (Int × Int)) (now : ℚ) :
    ((self.update d now).2 = [] ∧ (self.update d now).1.last_fire_time = self.last_fire_time) ∨
    ((self.update d now).2 ≠ [] ∧ DEBOUNCE_TIME ≤ now - self.last_fire_time ∧
      (self.update d now).1.last_fire_time = now) := by
  unfold DirectionRepeater.update
  rcases d with _ | dir
  · left
    refine ⟨by simp, ?_⟩
    by_cases hs : self.active_dir.isSome <;> simp [hs]
  · by_cases h0 : dir = (0, 0)
    · subst h0
      left
      refine ⟨by simp, ?_⟩
      by_cases hs : self.active_dir.isSome <;> simp [hs]
    · have hne : ¬((some dir : Option (Int × Int)) = none ∨
          (some dir : Option (Int × Int)) = some (0, 0)) := by
        rintro (h | h)
        · exact Option.noConfusion h
        · exact h0 (Option.some.inj h)
      rw [if_neg hne]
      by_cases h2 : now - self.last_fire_time < DEBOUNCE_TIME
      · rw [if_pos h2]
        exact Or.inl ⟨rfl, rfl⟩
      · rw [if_neg h2]
        by_cases h3 : (some dir : Option (Int × Int)) ≠ self.active_dir
        · rw [if_pos h3]
          by_cases h4 : self.release_time > 0 ∧ now - self.release_time < DEBOUNCE_TIME
          · rw [if_pos h4]
            exact Or.inl ⟨rfl, rfl⟩
          · rw [if_neg h4]
            exact Or.inr ⟨by simp, le_of_not_lt h2, rfl⟩
        · rw [if_neg h3]
          by_cases h5 : now ≥ self.next_fire_time
          · rw [if_pos h5]
            exact Or.inr ⟨by simp, le_of_not_lt h2, rfl⟩
          · rw [if_neg h5]
            exact Or.inl ⟨rfl, rfl⟩

/-- The fire times produced by a run form a chain in which consecutive
entries are at least `DEBOUNCE_TIME` apart, and the first fire is at least
`DEBOUNCE_TIME` after the initial `last_fire_time`. -/
lemma DirectionRepeater.runFires_chain :
    ∀ (inputs : List (ℚ × Option (Int × Int))) (self : DirectionRepeater),
      List.Chain' (fun a b => DEBOUNCE_TIME ≤ b - a) (self.runFires inputs) ∧
      (∀ f, (self.runFires inputs).head? = some f →
        DEBOUNCE_TIME ≤ f - self.last_fire_time)
  | [], _ => by simp [DirectionRepeater.runFires]
  | (t, d) :: rest, self => by
    have ih := DirectionRepeater.runFires_chain rest (self.update d t).1
    rcases self.update_fire_cases d t with ⟨hemp, hlast⟩ | ⟨hne, hdeb, hlast⟩
    · have hrun : self.runFires ((t, d) :: rest) = (self.update d t).1.runFires rest := by
        simp [DirectionRepeater.runFires, hemp]
      rw [hrun]
      refine ⟨ih.1, fun f hf => ?_⟩
      have h2 := ih.2 f hf
      rw [hlast] at h2
      exact h2
    · have hrun : self.runFires ((t, d) :: rest) = t :: (self.update d t).1.runFires rest := by
        simp [DirectionRepeater.runFires, List.isEmpty_iff, hne]
      rw [hrun]
      constructor
      · refine List.chain'_cons'.mpr ⟨fun f hf => ?_, ih.1⟩
        have h2 := ih.2 f hf
        rw [hlast] at h2
        exact h2
      · intro f hf
        simp only [List.head?_cons, Option.some_inj] at hf
        exact hf ▸ hdeb

/-- C2: over any sequence of `update` calls on one `DirectionRepeater`
instance, with any directions and non-decreasing call times, no two calls
that each return an emitted direction are separated by strictly less than
`DEBOUNCE_TIME`: the fire times are pairwise at least `DEBOUNCE_TIME`
apart, across every transition path. -/
theorem repeater_emissions_debounced (self : DirectionRepeater)
    (inputs : List (ℚ × Option (Int × Int)))
    (hmono : List.Chain' (· ≤ ·) (inputs.map Prod.fst)) :
    List.Pairwise (fun a b => ¬(b - a < DEBOUNCE_TIME)) (self.runFires inputs) := by
  haveI : IsTrans ℚ (fun a b => DEBOUNCE_TIME ≤ b - a) :=
    ⟨fun a b c hab hbc => by
      have hd : (0 : ℚ) ≤ DEBOUNCE_TIME := by norm_num [DEBOUNCE_TIME]
      have hab' : DEBOUNCE_TIME ≤ b - a := hab
      have hbc' : DEBOUNCE_TIME ≤ c - b := hbc
      show DEBOUNCE_TIME ≤ c - a
      linarith⟩
  have hchain := (DirectionRepeater.runFires_chain inputs self).1
  have hpw := List.chain'_iff_pairwise.mp hchain
  exact hpw.imp fun h => not_lt.mpr h

/-- Witness for C2 at a concrete two-call trace: a press that fires at
time 1, re-held at time 101/100 (which is silently absorbed). -/
theorem repeater_emissions_debounced_witness :
    List.Chain' (· ≤ ·)
      (([((1 : ℚ), some ((1 : Int), (0 : Int))),
         ((101/100 : ℚ), some ((1 : Int), (0 : Int)))]).map Prod.fst) ∧
    List.Pairwise (fun a b => ¬(b - a < DEBOUNCE_TIME))
      ((DirectionRepeater.init MOVE_REPEAT_DELAY MOVE_REPEAT_INTERVAL).runFires
        [((1 : ℚ), some ((1 : Int), (0 : Int))),
         ((101/100 : ℚ), some ((1 : Int), (0 : Int)))]) :=
  ⟨by norm_num, repeater_emissions_debounced _ _ (by norm_num)⟩

/-- C10: a single `DirectionRepeater.update` call returns at most one
direction, so one repeater channel never produces two fire events within
the same frame. -/
theorem repeater_update_at_most_one_event (self : DirectionRepeater)
    (d : Option (Int × Int)) (now : ℚ) :
    ((self.update d now).2).length ≤ 1 := by
  unfold DirectionRepeater.update
  rcases d with _ | d <;> split_ifs <;> simp

/-- A `DirectionRepeater` in the state reached by a fresh press of `(1, 0)`
at time 1 (so it is `Holding (1, 0)` with `last_fire_time = 1` and no
release recorded). -/
def switchHolding : DirectionRepeater :=
  { DirectionRepeater.init MOVE_REPEAT_DELAY MOVE_REPEAT_INTERVAL with
      active_dir := some (1, 0), fired_initial := true,
      next_fire_time := 1 + MOVE_REPEAT_DELAY, last_fire_time := 1 }

/-- C6 counterexample: in state `Holding (1, 0)` reached by a press at
time 1, an `update` with the different non-neutral direction `(0, 1)` at
time `1 + 1/50` — with no intervening neutral frame, `release_time` still 0 —
emits nothing at all (the standalone debounce guard swallows the switch),
contradicting the claim that such a call emits the new direction. -/
theorem repeater_switch_claim_counterexample :
    (((DirectionRepeater.init MOVE_REPEAT_DELAY MOVE_REPEAT_INTERVAL).update
        (some (1, 0)) 1).1 = switchHolding) ∧
    switchHolding.active_dir = some (1, 0) ∧
    switchHolding.release_time = 0 ∧
    (switchHolding.update (some (0, 1)) (1 + 1/50)).2 = [] := by
  refine ⟨?_, rfl, rfl, ?_⟩ <;>
    · unfold DirectionRepeater.update switchHolding DirectionRepeater.init
      norm_num [DEBOUNCE_TIME, MOVE_REPEAT_DELAY, MOVE_REPEAT_INTERVAL]
      simp

/-- C6 (amended): in state `Holding A`, an `update` call with a different
non-neutral direction `B`, with the last release not inside the debounce
window (or no release recorded), **and at least `DEBOUNCE_TIME` elapsed
since the repeater's last emission**, emits `B` in that same call, makes
`B` the held direction, and restarts the initial-delay timer. -/
theorem repeater_direction_switch_emits (self : DirectionRepeater)
    (A B : Int × Int) (now : ℚ)
    (hA : self.active_dir = some A) (hBA : B ≠ A) (hB0 : B ≠ (0, 0))
    (hrel : self.release_time = 0 ∨ DEBOUNCE_TIME ≤ now - self.release_time)
    (hfire : DEBOUNCE_TIME ≤ now - self.last_fire_time) :
    (self.update (some B) now).2 = [B] ∧
    (self.update (some B) now).1.active_dir = some B ∧
    (self.update (some B) now).1.next_fire_time = now + self.initial_delay ∧
    (self.update (some B) now).1.last_fire_time = now := by
  have h1 : ¬((some B : Option (Int × Int)) = none ∨
      (some B : Option (Int × Int)) = some (0, 0)) := by
    rintro (h | h)
    · exact Option.noConfusion h
    · exact hB0 (Option.some.inj h)
  have h3 : (some B : Option (Int × Int)) ≠ self.active_dir := by
    rw [hA]
    intro h
    exact hBA (Option.some.inj h)
  have h4 : ¬(self.release_time > 0 ∧ now - self.release_time < DEBOUNCE_TIME) := by
    rintro ⟨hpos, hlt⟩
    rcases hrel with h0 | hge
    · rw [h0] at hpos
      exact lt_irrefl 0 hpos
    · exact absurd hlt (not_lt.mpr hge)
  unfold DirectionRepeater.update
  rw [if_neg h1, if_neg (not_lt.mpr hfire), if_pos h3, if_neg h4]
  exact ⟨rfl, rfl, rfl, rfl⟩

/-- Witness for the amended C6 at a concrete input: from `Holding (1, 0)`
(pressed at time 1), switching to `(0, 1)` at time 2 emits `(0, 1)`. -/
theorem repeater_direction_switch_emits_witness :
    switchHolding.active_dir = some ((1 : Int), (0 : Int)) ∧
    ((0, 1) : Int × Int) ≠ (1, 0) ∧ ((0, 1) : Int × Int) ≠ (0, 0) ∧
    switchHolding.release_time = 0 ∧
    DEBOUNCE_TIME ≤ (2 : ℚ) - switchHolding.last_fire_time ∧
    (switchHolding.update (some (0, 1)) 2).2 = [(0, 1)] ∧
    (switchHolding.update (some (0, 1)) 2).1.next_fire_time =
      2 + switchHolding.initial_delay :=
  ⟨rfl, by decide, by decide, rfl, by norm_num [DEBOUNCE_TIME, switchHolding, DirectionRepeater.init],
   (repeater_direction_switch_emits switchHolding (1, 0) (0, 1) 2 rfl (by decide) (by decide)
      (Or.inl rfl)
      (by norm_num [DEBOUNCE_TIME, switchHolding, DirectionRepeater.init])).1,
   (repeater_direction_switch_emits switchHolding (1, 0) (0, 1) 2 rfl (by decide) (by decide)
      (Or.inl rfl)
      (by norm_num [DEBOUNCE_TIME, switchHolding, DirectionRepeater.init])).2.2.1⟩

/-! ## controller_state.py — ControllerState -/

def RESCAN_INTERVAL : ℚ := 2

/-- Per-frame device state and auto-detected axis mapping
(`controller_state.py`, `ControllerState`).  The pygame joystick handle is
represented by `connected` alone (the code sets and clears `self.joystick`
and `self.connected` together); button dictionaries are association
lists. -/
structure ControllerState where
  connected : Bool
  axis_left_x : Int
  axis_left_y : Int
  axis_right_x : Int
  axis_right_y : Int
  axis_lt : Int
  axis_rt : Int
  trigger_is_minus_one_rest : Bool
  last_poll_frame : Int
  prev_buttons : List (Nat × Bool)
  curr_buttons : List (Nat × Bool)
  prev_lt : Bool
  prev_rt : Bool
  curr_lt : Bool
  curr_rt : Bool
  prev_hat : Int × Int
  curr_hat : Int × Int
  prev_left_dir : Int × Int
  curr_left_dir : Int × Int
  prev_right_dir : Int × Int
  curr_right_dir : Int × Int
  last_scan_time : ℚ

/-- Model of `ControllerState.__init__`. -/
def ControllerState.initState : ControllerState :=
  { connected := false
    axis_left_x := 0
    axis_left_y := 1
    axis_right_x := -1
    axis_right_y := -1
    axis_lt := -1
    axis_rt := -1
    trigger_is_minus_one_rest := true
    last_poll_frame := -1
    prev_buttons := []
    curr_buttons := []
    prev_lt := false
    prev_rt := false
    curr_lt := false
    curr_rt := false
    prev_hat := (0, 0)
    curr_hat := (0, 0)
    prev_left_dir := (0, 0)
    curr_left_dir := (0, 0)
    prev_right_dir := (0, 0)
    curr_right_dir := (0, 0)
    last_scan_time := 0 }

/-- Python `dict.get(key, False)` on a button map. -/
def dictGet (d : List (Nat × Bool)) (k : Nat) : Bool := (d.lookup k).getD false

/-- The stick axes found by `_auto_detect_axes`: rest value not in the
trigger band (`val < -0.8` takes the first branch) and near zero
(`abs(val) < 0.5`). -/
def stickAxesOf (rest : List ℚ) : List Nat :=
  (List.range rest.length).filter fun i =>
    !decide (rest.getD i 0 < -8/10) && decide (|rest.getD i 0| < 5/10)

/-- The trigger axes found by `_auto_detect_axes`: rest value `< -0.8`. -/
def triggerAxesOf (rest : List ℚ) : List Nat :=
  (List.range rest.length).filter fun i => decide (rest.getD i 0 < -8/10)

/-- Model of `_auto_detect_axes(n_axes)` (`controller_state.py` lines 119-158):
classify each axis by its rest value (`rest` lists the values read by
`joystick.get_axis(i)`) and assign stick / trigger indices in detection
order. -/
def ControllerState.auto_detect_axes (self : ControllerState) (rest : List ℚ) :
    ControllerState :=
  let stick_axes := stickAxesOf rest
  let trigger_axes := triggerAxesOf rest
  let s1 := if 2 ≤ stick_axes.length then
      { self with axis_left_x := (stick_axes.getD 0 0 : Int),
                  axis_left_y := (stick_axes.getD 1 0 : Int) }
    else self
  let s2 := if 4 ≤ stick_axes.length then
      { s1 with axis_right_x := (stick_axes.getD 2 0 : Int),
                axis_right_y := (stick_axes.getD 3 0 : Int) }
    else if stick_axes.length = 3 then
      { s1 with axis_right_x := (stick_axes.getD 2 0 : Int) }
    else s1
  let s3 := if 1 ≤ trigger_axes.length then
      { s2 with axis_lt := (trigger_axes.getD 0 0 : Int),
                trigger_is_minus_one_rest := true }
    else s2
  let s4 := if 2 ≤ trigger_axes.length then
      { s3 with axis_rt := (trigger_axes.getD 1 0 : Int) }
    else s3
  if trigger_axes.length = 0 then { s4 with trigger_is_minus_one_rest := false } else s4

/-- What `try_init` finds after forcing re-enumeration: no joystick at all,
a joystick whose initialization raises, or a joystick whose axes rest at
the given values. -/
inductive InitDevice where
  | noDevice
  | failure
  | ok (rest : List ℚ)

/-- Model of `try_init` (`controller_state.py` lines 74-117), with the wall clock
`now` and the re-enumeration outcome passed explicitly.  Returns the new
state and the Python return value. -/
def ControllerState.try_init (self : ControllerState) (now : ℚ) (dev : InitDevice) :
    ControllerState × Bool :=
  if self.connected then (self, true)
  else if now - self.last_scan_time < RESCAN_INTERVAL then (self, false)
  else
    let s1 := { self with last_scan_time := now }
    match dev with
    | .noDevice => ({ s1 with connected := false }, false)
    | .failure => ({ s1 with connected := false }, false)
    | .ok rest => (({ s1 with connected := true }).auto_detect_axes rest, true)

/-- Model of `_stick_to_digital(x, y)` (lines 239-261).  The float expression
`(x*x + y*y) ** 0.5 < STICK_DEADZONE` is modelled by the equivalent
comparison of squares (both sides are non-negative). -/
def ControllerState.stick_to_digital (x y : ℚ) : Int × Int :=
  if x * x + y * y < STICK_DEADZONE * STICK_DEADZONE then (0, 0)
  else
    let dx : Int := if x > DIRECTION_THRESHOLD then 1
      else if x < -DIRECTION_THRESHOLD then -1 else 0
    let dy : Int := if y > DIRECTION_THRESHOLD then 1
      else if y < -DIRECTION_THRESHOLD then -1 else 0
    (dx, dy)

/-- Model of `_read_trigger(axis_idx, num_axes)` (lines 221-227); `axes` holds the
device's current axis values. -/
def ControllerState.read_trigger (self : ControllerState) (axis_idx : Int)
    (num_axes : Nat) (axes : List ℚ) : Bool :=
  if axis_idx < 0 ∨ (num_axes : Int) ≤ axis_idx then false
  else
    let raw := axes.getD axis_idx.toNat 0
    let val := if self.trigger_is_minus_one_rest then (raw + 1) / 2 else raw
    decide (val > TRIGGER_THRESHOLD)

/-- Model of `_read_stick(axis_x, axis_y, num_axes)` (lines 229-237). -/
def ControllerState.read_stick (_self : ControllerState) (axis_x axis_y : Int)
    (num_axes : Nat) (axes : List ℚ) : Int × Int :=
  if axis_x < 0 ∨ axis_y < 0 then (0, 0)
  else if (num_axes : Int) ≤ max axis_x axis_y then (0, 0)
  else ControllerState.stick_to_digital (axes.getD axis_x.toNat 0) (axes.getD axis_y.toNat 0)

/-- Model of `_handle_disconnect` (lines 324-330): clears the connection flag and
the joystick handle, leaving every snapshot field untouched. -/
def ControllerState.handle_disconnect (self : ControllerState) : ControllerState :=
  { self with connected := false }

/-- What one `poll` call observes from the device: either zero joysticks
(or an exception while checking — both call `_handle_disconnect`), or a
successful read of buttons, axis values and hats. -/
structure DeviceRead where
  buttons : List Bool
  axes : List ℚ
  hats : List (Int × Int)

inductive PollInput where
  | disconnected
  | read (r : DeviceRead)

/-- Model of `poll(frameno)` (`controller_state.py` lines 164-215). -/
def ControllerState.poll (self : ControllerState) (frameno : Int) (dev : PollInput) :
    ControllerState :=
  if ¬self.connected then self
  else if self.last_poll_frame = frameno then self
  else
    let s1 := { self with last_poll_frame := frameno }
    match dev with
    | .disconnected => s1.handle_disconnect
    | .read r =>
      let num_axes := r.axes.length
      let s2 := { s1 with
        prev_buttons := s1.curr_buttons
        curr_buttons := (List.range r.buttons.length).map fun i => (i, r.buttons.getD i false) }
      let s3 := { s2 with
        prev_lt := s2.curr_lt
        prev_rt := s2.curr_rt
        curr_lt := s2.read_trigger s2.axis_lt num_axes r.axes
        curr_rt := s2.read_trigger s2.axis_rt num_axes r.axes }
      let s4 := { s3 with
        prev_hat := s3.curr_hat
        curr_hat := if r.hats.length > 0 then r.hats.getD 0 (0, 0) else (0, 0) }
      { s4 with
        prev_left_dir := s4.curr_left_dir
        prev_right_dir := s4.curr_right_dir
        curr_left_dir := s4.read_stick s4.axis_left_x s4.axis_left_y num_axes r.axes
        curr_right_dir := s4.read_stick s4.axis_right_x s4.axis_right_y num_axes r.axes }

/-! Edge-detection queries (lines 267-318). -/

def ControllerState.button_just_pressed (self : ControllerState) (btn : Nat) : Bool :=
  dictGet self.curr_buttons btn && !dictGet self.prev_buttons btn

def ControllerState.button_held (self : ControllerState) (btn : Nat) : Bool :=
  dictGet self.curr_buttons btn

def ControllerState.button_just_released (self : ControllerState) (btn : Nat) : Bool :=
  !dictGet self.curr_buttons btn && dictGet self.prev_buttons btn

def ControllerState.lt_just_pressed (self : ControllerState) : Bool :=
  self.curr_lt && !self.prev_lt

def ControllerState.rt_just_pressed (self : ControllerState) : Bool :=
  self.curr_rt && !self.prev_rt

def ControllerState.get_dpad_direction (self : ControllerState) : Int × Int :=
  (self.curr_hat.1, -self.curr_hat.2)

def ControllerState.get_dpad_just_pressed (self : ControllerState) : Option (Int × Int) :=
  let curr := self.get_dpad_direction
  let prev := (self.prev_hat.1, -self.prev_hat.2)
  if curr ≠ (0, 0) ∧ curr ≠ prev then some curr else none

def ControllerState.get_left_dir_just_pressed (self : ControllerState) : Option (Int × Int) :=
  if self.curr_left_dir ≠ (0, 0) ∧ self.curr_left_dir ≠ self.prev_left_dir then
    some self.curr_left_dir
  else none

def ControllerState.get_right_dir_just_pressed (self : ControllerState) : Option (Int × Int) :=
  if self.curr_right_dir ≠ (0, 0) ∧ self.curr_right_dir ≠ self.prev_right_dir then
    some self.curr_right_dir
  else none

def ControllerState.get_combined_direction (self : ControllerState) : Int × Int :=
  let dpad := self.get_dpad_direction
  if dpad ≠ (0, 0) then dpad else self.curr_left_dir

def ControllerState.get_combined_dir_just_pressed (self : ControllerState) :
    Option (Int × Int) :=
  match self.get_dpad_just_pressed with
  | some d => some d
  | none => self.get_left_dir_just_pressed

/-- C9: axis auto-detection classifies axes by rest value and assigns
indices in detection order: a 6-axis device resting at `[0,0,0,0,-1,-1]`
maps the left stick to axes (0,1), the right stick to (2,3) and the
triggers to 4 and 5; and on any device with exactly 3 detected stick axes,
right-stick-X gets the third stick axis while right-stick-Y keeps the
unmapped sentinel `-1`. -/
theorem axis_auto_detect_scenarios :
    ((ControllerState.initState.auto_detect_axes [0, 0, 0, 0, -1, -1]).axis_left_x = 0 ∧
     (ControllerState.initState.auto_detect_axes [0, 0, 0, 0, -1, -1]).axis_left_y = 1 ∧
     (ControllerState.initState.auto_detect_axes [0, 0, 0, 0, -1, -1]).axis_right_x = 2 ∧
     (ControllerState.initState.auto_detect_axes [0, 0, 0, 0, -1, -1]).axis_right_y = 3 ∧
     (ControllerState.initState.auto_detect_axes [0, 0, 0, 0, -1, -1]).axis_lt = 4 ∧
     (ControllerState.initState.auto_detect_axes [0, 0, 0, 0, -1, -1]).axis_rt = 5) ∧
    (∀ rest : List ℚ, (stickAxesOf rest).length = 3 →
      (ControllerState.initState.auto_detect_axes rest).axis_right_x =
        ((stickAxesOf rest).getD 2 0 : Int) ∧
      (ControllerState.initState.auto_detect_axes rest).axis_right_y = -1) := by
  constructor
  · have hs : stickAxesOf [0, 0, 0, 0, -1, -1] = [0, 1, 2, 3] := by
      simp [stickAxesOf, List.range_succ]
      norm_num
    have ht : triggerAxesOf [0, 0, 0, 0, -1, -1] = [4, 5] := by
      simp [triggerAxesOf, List.range_succ]
      norm_num
    simp [ControllerState.auto_detect_axes, hs, ht, ControllerState.initState]
  · intro rest h3
    unfold ControllerState.auto_detect_axes
    simp only [h3]
    norm_num
    split_ifs <;> simp [ControllerState.initState]

/-- Witness for the 3-stick-axis half of C9 at a concrete device: rest
values `[0, 0, 0]` give exactly three stick axes, right-stick-X maps to
axis 2 and right-stick-Y stays `-1`. -/
theorem axis_auto_detect_scenarios_witness :
    (stickAxesOf [0, 0, 0]).length = 3 ∧
    (ControllerState.initState.auto_detect_axes [0, 0, 0]).axis_right_x =
      ((stickAxesOf [0, 0, 0]).getD 2 0 : Int) ∧
    (ControllerState.initState.auto_detect_axes [0, 0, 0]).axis_right_y = -1 := by
  have h3 : (stickAxesOf [0, 0, 0]).length = 3 := by
    norm_num [stickAxesOf, List.range_succ]
  exact ⟨h3, axis_auto_detect_scenarios.2 [0, 0, 0] h3⟩

/-- A session connecting (at time 5) to a degenerate device with one
button, no axes and no hat. -/
def c3Connected : ControllerState :=
  (ControllerState.initState.try_init 5 (.ok [])).1

/-- The state after polling frame 1 with button 0 held down. -/
def c3Held : ControllerState :=
  c3Connected.poll 1 (.read { buttons := [true], axes := [], hats := [] })

/-- The state after the device disappears at the frame-2 poll — a
mid-session disconnect. -/
def c3After : ControllerState := c3Held.poll 2 .disconnected

/-- C3 counterexample: in the state reached by connecting, polling one
frame with button 0 held, then suffering a mid-session disconnect,
`connected` is false yet `button_held 0` still answers `true`
(`_handle_disconnect` does not clear the retained snapshots and the
queries never consult `connected`), contradicting the claim that every
query answers neutral/false whenever the controller is disconnected. -/
theorem controller_disconnected_query_counterexample :
    c3After.connected = false ∧ c3After.button_held 0 = true := by
  have hc : c3Connected.connected = true ∧ c3Connected.last_poll_frame = -1 ∧
      c3Connected.curr_buttons = [] := by
    refine ⟨?_, ?_, ?_⟩ <;>
      norm_num [c3Connected, ControllerState.try_init, ControllerState.initState,
        RESCAN_INTERVAL, ControllerState.auto_detect_axes, stickAxesOf, triggerAxesOf]
  have hh : c3Held.connected = true ∧ c3Held.last_poll_frame = 1 ∧
      c3Held.curr_buttons = [(0, true)] := by
    obtain ⟨h1, h2, h3⟩ := hc
    refine ⟨?_, ?_, ?_⟩ <;>
      simp [c3Held, ControllerState.poll, h1, h2, List.range_succ]
  obtain ⟨g1, g2, g3⟩ := hh
  constructor
  · simp [c3After, ControllerState.poll, ControllerState.handle_disconnect, g1, g2]
  · simp [c3After, ControllerState.poll, ControllerState.handle_disconnect,
      ControllerState.button_held, dictGet, g1, g2, g3]

/-- C3 (amended): the edge-detection queries never consult the connection
flag; they answer from the retained frame snapshots, and `poll` is a no-op
while disconnected, so after a mid-session disconnect they keep answering
from the last pre-disconnect snapshots.  They all return neutral/false
exactly when those snapshots are neutral: for any state whose current and
previous snapshots are neutral, every query returns neutral/false, and no
query can fail. -/
theorem controller_disconnected_queries_neutral (s : ControllerState)
    (hb : s.curr_buttons = []) (hpb : s.prev_buttons = [])
    (hlt : s.curr_lt = false) (hplt : s.prev_lt = false)
    (hrt : s.curr_rt = false) (hprt : s.prev_rt = false)
    (hhat : s.curr_hat = (0, 0)) (hphat : s.prev_hat = (0, 0))
    (hld : s.curr_left_dir = (0, 0)) :
    (∀ b : Nat, s.button_just_pressed b = false ∧ s.button_held b = false ∧
      s.button_just_released b = false) ∧
    s.lt_just_pressed = false ∧ s.rt_just_pressed = false ∧
    s.get_dpad_direction = (0, 0) ∧
    s.get_dpad_just_pressed = none ∧
    s.get_left_dir_just_pressed = none ∧
    s.get_combined_direction = (0, 0) ∧
    s.get_combined_dir_just_pressed = none ∧
    (∀ (frameno : Int) (dev : PollInput), s.connected = false →
      s.poll frameno dev = s) := by
  have hdpad : s.get_dpad_direction = (0, 0) := by
    simp [ControllerState.get_dpad_direction, hhat]
  refine ⟨?_, ?_, ?_, hdpad, ?_, ?_, ?_, ?_, ?_⟩
  · intro b
    refine ⟨?_, ?_, ?_⟩ <;>
      simp [ControllerState.button_just_pressed, ControllerState.button_held,
        ControllerState.button_just_released, dictGet, hb, hpb]
  · simp [ControllerState.lt_just_pressed, hlt]
  · simp [ControllerState.rt_just_pressed, hrt]
  · simp [ControllerState.get_dpad_just_pressed, hdpad]
  · simp [ControllerState.get_left_dir_just_pressed, hld]
  · simp [ControllerState.get_combined_direction, hdpad, hld]
  · simp [ControllerState.get_combined_dir_just_pressed,
      ControllerState.get_dpad_just_pressed, ControllerState.get_left_dir_just_pressed,
      hdpad, hld]
  · intro frameno dev hcon
    simp [ControllerState.poll, hcon]

/-- Witness for the amended C3 at the freshly initialized (never-connected,
all-neutral) state. -/
theorem controller_disconnected_queries_neutral_witness :
    ControllerState.initState.curr_buttons = [] ∧
    ControllerState.initState.curr_hat = (0, 0) ∧
    ControllerState.initState.button_held 0 = false ∧
    ControllerState.initState.get_combined_direction = (0, 0) ∧
    ControllerState.initState.get_combined_dir_just_pressed = none :=
  ⟨rfl, rfl,
   ((controller_disconnected_queries_neutral ControllerState.initState
      rfl rfl rfl rfl rfl rfl rfl rfl rfl).1 0).2.1,
   (controller_disconnected_queries_neutral ControllerState.initState
      rfl rfl rfl rfl rfl rfl rfl rfl rfl).2.2.2.2.2.2.1,
   (controller_disconnected_queries_neutral ControllerState.initState
      rfl rfl rfl rfl rfl rfl rfl rfl rfl).2.2.2.2.2.2.2.1⟩

/-! ## Host data model

The parts of the host game observed or mutated by the mod: `Point` and
levels (`Level.can_move(player, x, y)` with the player fixed to `game.p1`,
and `is_point_in_bounds`), the coarse view states, the key-bind table and
the `PyGameView` fields the mod reads and writes.  Host interactions are
recorded as `HostCall` values in the order they are performed. -/

structure Point where
  x : Int
  y : Int
deriving DecidableEq, Repr

/-- Levels `game.cur_level` / `game.next_level` as seen by the mod:
`level.can_move(player, x, y)` (with the player as the fixed first
argument) and `level.is_point_in_bounds(p)`. -/
structure Level where
  can_move : Int → Int → Bool
  in_bounds : Point → Bool

/-- The coarse `view.state` values the injection pipeline compares against
(`STATE_LEVEL` distinguished; every other state behaves alike here). -/
inductive GState where
  | level
  | title
  | options
  | other
deriving DecidableEq, Repr

/-- The `KEY_BIND_*` constants used by the pipeline. -/
inductive Bind where
  | up
  | down
  | left
  | right
  | up_right
  | up_left
  | down_right
  | down_left
  | pass
  | confirm
  | abort
  | char
  | help
  | tab
  | autopickup
  | threat
  | interact
  | reroll
  | next_examine_target
  | prev_examine_target
deriving DecidableEq, Repr

/-- An item in `game.p1.items`: a host object exposing an inner `.spell`
selectable (spells are identified by an id). -/
structure Item where
  spell : Nat
deriving DecidableEq, Repr

/-- An element of a browsed host list: either a spell (browsed directly)
or an item (whose inner `.spell` is selected). -/
inductive Entry where
  | spellEntry (id : Nat)
  | itemEntry (it : Item)
deriving DecidableEq, Repr

/-- The synthetic `StepSpell` (walk_target.py lines 29-92).  `id` models
Python object identity (`is` comparisons); `caster` is the player (whose
position is captured here — the player does not move while the overlay is
up); the remaining fields are the constants set in `__init__`.  The
draw-only helpers `get_stat`, `get_impacted_tiles` and the no-op `cast` /
`cast_instant` / `can_pay_costs` have no observable effect on the mod's
state and are not modelled. -/
structure StepSpell where
  id : Nat
  caster : Point
  level : Level
  name : String
  melee : Bool
  show_tt : Bool
  can_target_self : Bool

/-- Model of `StepSpell.can_cast(x, y)`: `level.can_move(caster, x, y)`. -/
def StepSpell.can_cast (s : StepSpell) (x y : Int) : Bool :=
  s.level.can_move x y

/-- Model of `StepSpell.get_targetable_tiles()`: the adjacent in-bounds tiles the
player can walk to, in the `dx`-major iteration order of the source. -/
def StepSpell.get_targetable_tiles (s : StepSpell) : List Point :=
  let cx := s.caster.x
  let cy := s.caster.y
  List.flatMap [-1, 0, 1] fun dx =>
    List.filterMap
      (fun dy =>
        if dx = 0 ∧ dy = 0 then none
        else
          let p : Point := ⟨cx + dx, cy + dy⟩
          if s.level.in_bounds p then
            if s.can_cast p.x p.y then some p else none
          else none)
      [-1, 0, 1]

/-- What `view.cur_spell` can hold: the mod's synthetic `StepSpell` or a
real host spell (identified by an id). -/
inductive SpellObj where
  | step (s : StepSpell)
  | real (id : Nat)

/-- The `PyGameView` fields read and written by the mod, plus the host
behaviour the mod invokes: `move_result` gives the return value of
`view.try_move(offset)` and `key_for` the first bound key
`get_key_for_bind` finds for a bind (`none` when unbound).  `has_game` and
`has_p1` model the truthiness/`hasattr` guards on `view.game` and
`view.game.p1`; `events` is the host's synthetic-event queue (key
codes). -/
structure View where
  state : GState
  has_game : Bool
  has_p1 : Bool
  player : Point
  level : Level
  next_level : Level
  cur_spell : Option SpellObj
  cur_spell_target : Option Point
  targetable_tiles : Option (List Point)
  tab_targets : List Point
  deploy_target : Option Point
  spells : List Nat
  items : List Item
  can_execute_inputs : Bool
  move_result : Point → Bool
  key_for : Bind → Option Nat
  events : List Nat

/-- A host interaction performed through the view, in order.  A
`try_move` records the offset passed to `view.try_move`, whether the
overlay state (`cur_spell`, `cur_spell_target`, `targetable_tiles`) was
already cleared at the moment of the call, and the host's return value. -/
inductive HostCall where
  | try_move (offset : Point) (overlay_cleared : Bool) (moved : Bool)
  | play_sound (sname : String)
  | try_examine_tile (p : Point)
  | choose_spell (spell_id : Nat)
  | choose_entry (id : Nat)
  | abort_cur_spell
deriving DecidableEq, Repr

/-! ## walk_target.py — walk-target overlay -/

/-- The module state of `walk_target.py`: `_active` and `_step_spell`. -/
structure WalkState where
  active : Bool
  step_spell : Option StepSpell

/-- The module-load state: inactive, no spell. -/
def WalkState.initState : WalkState := { active := false, step_spell := none }

/-- The `view.cur_spell is _step_spell` object-identity test (identity is
modelled by the `id` tag). -/
def spell_is_step (cur : Option SpellObj) (ss : Option StepSpell) : Bool :=
  match cur, ss with
  | some (.step a), some b => a.id == b.id
  | _, _ => false

/-- Model of `is_walk_target_active()` (walk_target.py lines 20-22). -/
def is_walk_target_active (ws : WalkState) : Bool := ws.active

/-- Model of `_force_cleanup()` (lines 191-196). -/
def force_cleanup (_ws : WalkState) : WalkState :=
  { active := false, step_spell := none }

/-- Model of `walk_target_enter(view)` (lines 99-112); `sid` models the identity of
the freshly constructed `StepSpell` object. -/
def walk_target_enter (sid : Nat) (ws : WalkState) (view : View) : WalkState × View :=
  let _ := ws
  let s : StepSpell :=
    { id := sid, caster := view.player, level := view.level, name := "Step",
      melee := true, show_tt := true, can_target_self := false }
  ({ active := true, step_spell := some s },
   { view with
      cur_spell := some (.step s)
      cur_spell_target := some view.player
      targetable_tiles := some s.get_targetable_tiles
      tab_targets := [] })

/-- Model of `walk_target_update(view, ctrl)` (lines 115-139). -/
def walk_target_update (ws : WalkState) (view : View) (ctrl : ControllerState) :
    WalkState × View × List HostCall :=
  if ¬ws.active ∨ ws.step_spell.isNone then (ws, view, [])
  else if ¬spell_is_step view.cur_spell ws.step_spell then
    -- Safety: if something else cleared our spell, bail out
    (force_cleanup ws, view, [])
  else
    let direction := ctrl.get_combined_direction
    if direction = (0, 0) then (ws, view, [])  -- keep last aimed position
    else
      let player := view.player
      let target : Point := ⟨player.x + direction.1, player.y + direction.2⟩
      if view.level.in_bounds target then
        (ws, { view with cur_spell_target := some target }, [.try_examine_tile target])
      else
        (ws, view, [])

/-- Result of `walk_target_exit`: new module state, new view, the host
calls performed, and the returned `moved` flag. -/
structure ExitResult where
  walk : WalkState
  view : View
  calls : List HostCall
  moved : Bool

/-- True when the overlay fields of the view are all cleared. -/
def overlayCleared (view : View) : Bool :=
  view.cur_spell.isNone && view.cur_spell_target.isNone && view.targetable_tiles.isNone

/-- Model of `walk_target_exit(view, do_walk)` (lines 142-188). -/
def walk_target_exit (ws : WalkState) (view : View) (do_walk : Bool) : ExitResult :=
  match do_walk, ws.step_spell, view.cur_spell_target with
  | true, some s, some tgt =>
    let player := view.player
    let dx := tgt.x - player.x
    let dy := tgt.y - player.y
    let can_walk := decide (dx ≠ 0 ∨ dy ≠ 0) && s.can_cast tgt.x tgt.y
    -- Clear targeting state BEFORE moving so the game doesn't see the
    -- dummy spell on the next frame.
    let view1 := { view with cur_spell := none, cur_spell_target := none,
                             targetable_tiles := none }
    let ws1 : WalkState := { active := false, step_spell := none }
    if can_walk then
      let moved := view1.move_result ⟨dx, dy⟩
      { walk := ws1, view := view1,
        calls := [.try_move ⟨dx, dy⟩ (overlayCleared view1) moved], moved := moved }
    else if dx ≠ 0 ∨ dy ≠ 0 then
      -- Player aimed at an invalid tile — play abort sound
      { walk := ws1, view := view1, calls := [.play_sound "menu_abort"], moved := false }
    else
      -- Player never aimed (target still on self) — silent cancel
      { walk := ws1, view := view1, calls := [], moved := false }
  | _, _, _ =>
    let view1 := { view with cur_spell := none, cur_spell_target := none,
                             targetable_tiles := none }
    let ws1 : WalkState := { active := false, step_spell := none }
    { walk := ws1, view := view1,
      calls := if do_walk then [.play_sound "menu_abort"] else [], moved := false }

/-- C1: for an active walk-target session (spell installed, aim recorded),
`walk_target_exit` with `do_walk = true` behaves by case on the aim:
aim at the origin → state cleared, no host call at all, returns false;
aim elsewhere and the offset legal → overlay state already cleared when the
single `try_move` with offset `aim - origin` is invoked, and the call's
result is returned; aim elsewhere and illegal → no move, exactly one abort
cue. -/
theorem walk_exit_commit_cases (ws : WalkState) (view : View) (s : StepSpell) (aim : Point)
    (hact : ws.active = true) (hsp : ws.step_spell = some s)
    (htgt : view.cur_spell_target = some aim) :
    (aim = view.player →
      (walk_target_exit ws view true).calls = [] ∧
      (walk_target_exit ws view true).moved = false ∧
      (walk_target_exit ws view true).walk.active = false ∧
      (walk_target_exit ws view true).walk.step_spell = none ∧
      overlayCleared (walk_target_exit ws view true).view = true) ∧
    (aim ≠ view.player → s.can_cast aim.x aim.y = true →
      (walk_target_exit ws view true).calls =
        [HostCall.try_move ⟨aim.x - view.player.x, aim.y - view.player.y⟩ true
          (view.move_result ⟨aim.x - view.player.x, aim.y - view.player.y⟩)] ∧
      (walk_target_exit ws view true).moved =
        view.move_result ⟨aim.x - view.player.x, aim.y - view.player.y⟩ ∧
      (walk_target_exit ws view true).walk.active = false ∧
      (walk_target_exit ws view true).walk.step_spell = none ∧
      overlayCleared (walk_target_exit ws view true).view = true) ∧
    (aim ≠ view.player → s.can_cast aim.x aim.y = false →
      (walk_target_exit ws view true).calls = [HostCall.play_sound "menu_abort"] ∧
      (walk_target_exit ws view true).moved = false ∧
      (walk_target_exit ws view true).walk.active = false ∧
      (walk_target_exit ws view true).walk.step_spell = none ∧
      overlayCleared (walk_target_exit ws view true).view = true) := by
  have hxy : ∀ h : aim ≠ view.player,
      aim.x - view.player.x ≠ 0 ∨ aim.y - view.player.y ≠ 0 := by
    intro h
    by_contra hcon
    push_neg at hcon
    refine h ?_
    calc aim = ⟨aim.x, aim.y⟩ := rfl
      _ = ⟨view.player.x, view.player.y⟩ := by
          rw [show aim.x = view.player.x by omega, show aim.y = view.player.y by omega]
      _ = view.player := rfl
  refine ⟨?_, ?_, ?_⟩
  · intro h
    subst h
    simp [walk_target_exit, hsp, htgt, overlayCleared]
  · intro hne hcast
    simp [walk_target_exit, hsp, htgt, hcast, hxy hne, overlayCleared]
  · intro hne hcast
    simp [walk_target_exit, hsp, htgt, hcast, hxy hne, overlayCleared]

/-- A level where every move is legal and every point in bounds. -/
def trueLevel : Level :=
  { can_move := fun _ _ => true, in_bounds := fun _ => true }

/-- A host view in the level state with the player at (3, 4). -/
def baseView : View :=
  { state := .level, has_game := true, has_p1 := true, player := ⟨3, 4⟩,
    level := trueLevel, next_level := trueLevel, cur_spell := none,
    cur_spell_target := none, targetable_tiles := none, tab_targets := [],
    deploy_target := none, spells := [], items := [], can_execute_inputs := true,
    move_result := fun _ => true, key_for := fun _ => none, events := [] }

/-- The `StepSpell` of a walk-target session opened on `baseView`. -/
def c1Spell : StepSpell :=
  { id := 7, caster := ⟨3, 4⟩, level := trueLevel, name := "Step",
    melee := true, show_tt := true, can_target_self := false }

def c1Walk : WalkState := { active := true, step_spell := some c1Spell }

/-- Fixture: `baseView` with the session's spell installed and the aim one step
east of the player. -/
def c1View : View :=
  { baseView with cur_spell := some (.step c1Spell),
                  cur_spell_target := some ⟨4, 4⟩, targetable_tiles := some [] }

/-- Witness for C1 (legal-offset case) at a concrete session: aiming at
(4, 4) from (3, 4) performs exactly one move with offset (1, 0) after the
overlay is cleared, and returns the host's result. -/
theorem walk_exit_commit_cases_witness :
    c1Walk.active = true ∧ c1Walk.step_spell = some c1Spell ∧
    c1View.cur_spell_target = some ⟨4, 4⟩ ∧
    (⟨4, 4⟩ : Point) ≠ c1View.player ∧ c1Spell.can_cast 4 4 = true ∧
    (walk_target_exit c1Walk c1View true).calls =
      [HostCall.try_move ⟨1, 0⟩ true true] ∧
    (walk_target_exit c1Walk c1View true).moved = true := by
  refine ⟨rfl, rfl, rfl, by decide, rfl, ?_, ?_⟩
  · rw [((walk_exit_commit_cases c1Walk c1View c1Spell ⟨4, 4⟩ rfl rfl rfl).2.1
      (by decide) rfl).1]
    rfl
  · rw [((walk_exit_commit_cases c1Walk c1View c1Spell ⟨4, 4⟩ rfl rfl rfl).2.1
      (by decide) rfl).2.1]
    rfl

/-- An active walk-target session whose spell was removed from the view by
something external (`cur_spell` is `none`) while the aim is still set one
step east. -/
def c5View : View :=
  { baseView with cur_spell := none, cur_spell_target := some ⟨4, 4⟩,
                  targetable_tiles := some [] }

def c5Walk : WalkState := { active := true, step_spell := some c1Spell }

/-- C5 counterexample: `walk_target_exit` performs **no** consistency
check — with the host's `cur_spell` no longer referencing the session's
`StepSpell` (here: cleared externally), `exit(do_walk=true)` still invokes
the host move, contradicting the claim that any exit call under a
mismatch performs no host interaction. -/
theorem walk_exit_no_consistency_check_counterexample :
    spell_is_step c5View.cur_spell c5Walk.step_spell = false ∧
    (walk_target_exit c5Walk c5View true).calls =
      [HostCall.try_move ⟨1, 0⟩ true true] := by
  exact ⟨rfl, rfl⟩

/-- C5 (amended): the consistency check happens in `walk_target_update`
only: there, if the host's `cur_spell` no longer references this
session's `StepSpell`, the controller force-clears its local state, leaves
the view untouched and performs no host interaction.  `walk_target_exit`
runs its normal exit logic regardless of the mismatch. -/
theorem walk_update_consistency_check (ws : WalkState) (view : View)
    (ctrl : ControllerState) (s : StepSpell)
    (hact : ws.active = true) (hsp : ws.step_spell = some s)
    (hmis : spell_is_step view.cur_spell ws.step_spell = false) :
    walk_target_update ws view ctrl =
      ({ active := false, step_spell := none }, view, []) := by
  unfold walk_target_update
  rw [if_neg, if_pos]
  · rfl
  · simp [hmis]
  · simp [hact, hsp]

/-- Witness for the amended C5 at the concrete mismatched session. -/
theorem walk_update_consistency_check_witness :
    c5Walk.active = true ∧ c5Walk.step_spell = some c1Spell ∧
    spell_is_step c5View.cur_spell c5Walk.step_spell = false ∧
    walk_target_update c5Walk c5View ControllerState.initState =
      ({ active := false, step_spell := none }, c5View, []) :=
  ⟨rfl, rfl, rfl,
   walk_update_consistency_check c5Walk c5View ControllerState.initState c1Spell
     rfl rfl rfl⟩

/-! ## browse.py — spell / item browse mode -/

inductive BrowseKind where
  | spells
  | items
deriving DecidableEq, Repr

/-- The module state of `browse.py`: `_browse_mode` and `_browse_index`. -/
structure BrowseState where
  mode : Option BrowseKind
  index : Int
deriving DecidableEq, Repr

/-- The module-load state: not browsing, index 0. -/
def BrowseState.initState : BrowseState := { mode := none, index := 0 }

/-- Model of `is_browsing()`. -/
def is_browsing (bs : BrowseState) : Bool := bs.mode.isSome

/-- The host list for a browse kind:
`view.game.p1.spells if mode == 'spells' else view.game.p1.items`,
injected into the common `Entry` type. -/
def browseListOf (view : View) (mode : BrowseKind) : List Entry :=
  match mode with
  | .spells => view.spells.map Entry.spellEntry
  | .items => view.items.map Entry.itemEntry

/-- Model of `_get_browse_list(view)` (browse.py lines 24-32): the host-owned list
being browsed, or `[]`. -/
def get_browse_list (view : View) (mode : Option BrowseKind) : List Entry :=
  if ¬(view.has_game ∧ view.has_p1) then []
  else
    match mode with
    | some k => browseListOf view k
    | none => []

/-- Model of `_browse_select_current(view)` (lines 35-46): clamp the index into the
list and invoke `view.choose_spell` on the entry (`entry.spell` in items
mode, the entry itself otherwise).  The mode/entry cross cases can only
carry the constructors produced by `get_browse_list` for that mode. -/
def browse_select_current (bs : BrowseState) (view : View) :
    BrowseState × List HostCall :=
  if (get_browse_list view bs.mode).isEmpty then (bs, [])
  else
    let lst := get_browse_list view bs.mode
    let idx : Int := max 0 (min bs.index ((lst.length : Int) - 1))
    let entry := lst.getD idx.toNat (Entry.spellEntry 0)
    let call :=
      match bs.mode, entry with
      | some .items, .itemEntry it => HostCall.choose_spell it.spell
      | some .items, .spellEntry i => HostCall.choose_spell i
      | _, .spellEntry i => HostCall.choose_entry i
      | _, .itemEntry it => HostCall.choose_entry it.spell
    ({ bs with index := idx }, [call])

/-- Model of `browse_open(view, mode)` (lines 58-71). -/
def browse_open (bs : BrowseState) (view : View) (mode : BrowseKind) :
    BrowseState × List HostCall :=
  if ¬(view.has_game ∧ view.has_p1) then (bs, [])
  else if (browseListOf view mode).isEmpty then (bs, [HostCall.play_sound "menu_abort"])
  else browse_select_current { mode := some mode, index := 0 } view

/-- Model of `browse_cycle(view, delta)` (lines 74-81). -/
def browse_cycle (bs : BrowseState) (view : View) (delta : Int) :
    BrowseState × List HostCall :=
  if (get_browse_list view bs.mode).isEmpty then (bs, [])
  else
    browse_select_current
      { bs with index :=
          (bs.index + delta) % ((get_browse_list view bs.mode).length : Int) } view

/-- Model of `browse_confirm(view)` (lines 84-91): close the session and inject a
CONFIRM key event into the host queue when one is bound. -/
def browse_confirm (bs : BrowseState) (view : View) : BrowseState × View :=
  let bs1 := { bs with mode := none }
  match view.key_for Bind.confirm with
  | some k => (bs1, { view with events := view.events ++ [k] })
  | none => (bs1, view)

/-- Model of `browse_cancel(view)` (lines 94-100). -/
def browse_cancel (bs : BrowseState) (view : View) : BrowseState × List HostCall :=
  let bs1 := { bs with mode := none }
  if view.cur_spell.isSome then (bs1, [HostCall.abort_cur_spell]) else (bs1, [])

/-- Model of `clear_browse()` (lines 103-106). -/
def clear_browse (bs : BrowseState) : BrowseState := { bs with mode := none }

/-- C7: on a non-empty browsed list of length `N`, `browse_cycle delta`
sets the index to `(index + delta) mod N` (Python `%`, i.e. `Int.emod`),
wrapping in both directions — `+1` at `N-1` gives 0, `-1` at 0 gives
`N-1` — and after any open or cycle the index lies in `[0, N-1]`. -/
theorem browse_cycle_wraps (bs : BrowseState) (view : View) (kind : BrowseKind)
    (delta : Int) (hmode : bs.mode = some kind)
    (hlen : 0 < (get_browse_list view bs.mode).length) :
    ((browse_cycle bs view delta).1.index =
        (bs.index + delta) % ((get_browse_list view bs.mode).length : Int) ∧
      0 ≤ (browse_cycle bs view delta).1.index ∧
      (browse_cycle bs view delta).1.index <
        ((get_browse_list view bs.mode).length : Int)) ∧
    (bs.index = ((get_browse_list view bs.mode).length : Int) - 1 →
      (browse_cycle bs view 1).1.index = 0) ∧
    (bs.index = 0 →
      (browse_cycle bs view (-1)).1.index =
        ((get_browse_list view bs.mode).length : Int) - 1) ∧
    ((browse_open bs view kind).1.index = 0 ∧
      (browse_open bs view kind).1.mode = some kind) := by
  have hNne : ((get_browse_list view bs.mode).length : Int) ≠ 0 := by
    exact_mod_cast Nat.pos_iff_ne_zero.mp hlen
  have hNpos : (0 : Int) < ((get_browse_list view bs.mode).length : Int) := by
    exact_mod_cast hlen
  have hne : (get_browse_list view bs.mode).isEmpty = false := by
    cases hl : get_browse_list view bs.mode with
    | nil => rw [hl] at hlen; simp at hlen
    | cons a l => rfl
  have hcyc : ∀ d : Int, (browse_cycle bs view d).1.index =
      (bs.index + d) % ((get_browse_list view bs.mode).length : Int) := by
    intro d
    have hmod0 : 0 ≤ (bs.index + d) % ((get_browse_list view bs.mode).length : Int) :=
      Int.emod_nonneg _ hNne
    have hmodlt : (bs.index + d) % ((get_browse_list view bs.mode).length : Int) <
        ((get_browse_list view bs.mode).length : Int) :=
      Int.emod_lt_of_pos _ hNpos
    show (browse_cycle bs view d).1.index = _
    rw [browse_cycle, if_neg (by simp [hne]), browse_select_current]
    rw [if_neg (by simp [hne])]
    dsimp only
    rw [min_eq_left (by omega), max_eq_right (by omega)]
  refine ⟨⟨hcyc delta, ?_, ?_⟩, ?_, ?_, ?_⟩
  · rw [hcyc delta]
    exact Int.emod_nonneg _ hNne
  · rw [hcyc delta]
    exact Int.emod_lt_of_pos _ hNpos
  · intro hN
    rw [hcyc 1, hN]
    have heq : ((get_browse_list view bs.mode).length : Int) - 1 + 1 =
        ((get_browse_list view bs.mode).length : Int) := by ring
    rw [heq, Int.emod_self]
  · intro h0
    rw [hcyc (-1), h0]
    have heq : (0 : Int) + -1 =
        (((get_browse_list view bs.mode).length : Int) - 1) +
          ((get_browse_list view bs.mode).length : Int) * (-1) := by ring
    rw [heq, Int.add_mul_emod_self_left,
      Int.emod_eq_of_lt (by omega) (by omega)]
  · have hgame : view.has_game ∧ view.has_p1 := by
      by_contra hg
      rw [get_browse_list.eq_def, if_pos hg] at hlen
      simp at hlen
    have hblne : (browseListOf view kind).isEmpty = false := by
      have heq2 : get_browse_list view bs.mode = browseListOf view kind := by
        rw [hmode, get_browse_list.eq_def, if_neg (not_not_intro hgame)]
      rw [← heq2]
      exact hne
    rw [browse_open, if_neg (not_not_intro hgame), if_neg (by simp [hblne])]
    rw [browse_select_current]
    have hmode0 : get_browse_list view (some kind) = get_browse_list view bs.mode := by
      rw [hmode]
    rw [if_neg (by show ¬((get_browse_list view (some kind)).isEmpty = true)
                   rw [hmode0]
                   simp [hne])]
    constructor
    · show max 0 (min 0 _) = 0
      have hlen' : (0 : Int) ≤ ((get_browse_list view (some kind)).length : Int) - 1 := by
        rw [hmode0]
        omega

      rw [min_eq_left hlen', max_eq_right le_rfl]
    · rfl

/-- A view whose player owns three spells (ids 10, 20, 30). -/
def c7View : View := { baseView with spells := [10, 20, 30] }

/-- A browse session on the spell list at its last index. -/
def c7Browse : BrowseState := { mode := some .spells, index := 2 }

/-- Witness for C7 at a concrete 3-entry session: cycling +1 from the last
index wraps to 0 and stays in range. -/
theorem browse_cycle_wraps_witness :
    c7Browse.mode = some BrowseKind.spells ∧
    0 < (get_browse_list c7View c7Browse.mode).length ∧
    c7Browse.index = ((get_browse_list c7View c7Browse.mode).length : Int) - 1 ∧
    (browse_cycle c7Browse c7View 1).1.index = 0 ∧
    0 ≤ (browse_cycle c7Browse c7View 1).1.index ∧
    (browse_cycle c7Browse c7View 1).1.index <
      ((get_browse_list c7View c7Browse.mode).length : Int) :=
  ⟨rfl, by decide, by decide,
   (browse_cycle_wraps c7Browse c7View BrowseKind.spells 1 rfl (by decide)).2.1
     (by decide),
   (browse_cycle_wraps c7Browse c7View BrowseKind.spells 1 rfl (by decide)).1.2.1,
   (browse_cycle_wraps c7Browse c7View BrowseKind.spells 1 rfl (by decide)).1.2.2⟩

/-- C8: `browse_open` on an empty host list (with the host view present)
leaves the browse state untouched — in particular the browsing flag stays
off — and performs exactly one host call, the `menu_abort` cue; the
host preview is never invoked. -/
theorem browse_open_empty_aborts (bs : BrowseState) (view : View) (kind : BrowseKind)
    (hgame : view.has_game = true) (hp1 : view.has_p1 = true)
    (hempty : browseListOf view kind = [])
    (hmode : bs.mode = none) :
    (browse_open bs view kind).1 = bs ∧
    (browse_open bs view kind).1.mode = none ∧
    (browse_open bs view kind).2 = [HostCall.play_sound "menu_abort"] := by
  have hg : ¬¬(view.has_game ∧ view.has_p1) := not_not_intro (by simp [hgame, hp1])
  rw [browse_open, if_neg hg, if_pos (by simp [hempty])]
  exact ⟨rfl, by rw [hmode], rfl⟩

/-- Witness for C8: opening the spell browser on a view with no spells. -/
theorem browse_open_empty_aborts_witness :
    baseView.has_game = true ∧ browseListOf baseView BrowseKind.spells = [] ∧
    BrowseState.initState.mode = none ∧
    (browse_open BrowseState.initState baseView BrowseKind.spells).1 =
      BrowseState.initState ∧
    (browse_open BrowseState.initState baseView BrowseKind.spells).2 =
      [HostCall.play_sound "menu_abort"] :=
  ⟨rfl, rfl, rfl,
   (browse_open_empty_aborts BrowseState.initState baseView BrowseKind.spells
      rfl rfl rfl rfl).1,
   (browse_open_empty_aborts BrowseState.initState baseView BrowseKind.spells
      rfl rfl rfl rfl).2.2⟩

/-! ## injection.py — the per-frame injection pipeline

`inject_controller_events` is modelled from the point where the frame
dedupe, the reconnect attempt and the `poll` call have succeeded (the
prelude, lines 77-94, only talks to pygame): `ctrl` is the freshly polled
controller state and `now` the wall clock the repeaters read.  Alongside
the new pipeline state and view, the model returns the ordered list of
pipeline operations performed (`PipeOp`) and the host calls made through
the view. -/

/-- The module state of `injection.py`: the browse and walk-target module
states, the three repeater singletons, and a counter supplying the
identity of the next `StepSpell` object constructed. -/
structure InjectState where
  browse : BrowseState
  walk : WalkState
  left_repeater : DirectionRepeater
  right_repeater : DirectionRepeater
  browse_repeater : DirectionRepeater
  next_spell_id : Nat

/-- The module-load state of the pipeline. -/
def InjectState.initState : InjectState :=
  { browse := BrowseState.initState
    walk := WalkState.initState
    left_repeater := DirectionRepeater.init MOVE_REPEAT_DELAY MOVE_REPEAT_INTERVAL
    right_repeater := DirectionRepeater.init CURSOR_REPEAT_DELAY CURSOR_REPEAT_INTERVAL
    browse_repeater := DirectionRepeater.init MOVE_REPEAT_DELAY MOVE_REPEAT_INTERVAL
    next_spell_id := 0 }

/-- A pipeline-level operation, in the order performed. -/
inductive PipeOp where
  | clear_browse
  | walk_exit (do_walk : Bool)
  | walk_update
  | walk_enter
  | browse_confirm
  | browse_cancel
  | browse_cycle_op (delta : Int)
  | browse_open_op (kind : BrowseKind)
  | repeater_move (d : Int × Int)
  | repeater_cursor (d : Int × Int)
  | repeater_browse (d : Int × Int)
  | bind_key (b : Bind)
deriving DecidableEq, Repr

/-- Model of `direction_to_key_bind(dx, dy)` (helpers.py lines 33-35). -/
def direction_to_key_bind (dx dy : Int) : Option Bind :=
  if dx = 0 ∧ dy = -1 then some .up
  else if dx = 0 ∧ dy = 1 then some .down
  else if dx = -1 ∧ dy = 0 then some .left
  else if dx = 1 ∧ dy = 0 then some .right
  else if dx = 1 ∧ dy = -1 then some .up_right
  else if dx = -1 ∧ dy = -1 then some .up_left
  else if dx = 1 ∧ dy = 1 then some .down_right
  else if dx = -1 ∧ dy = 1 then some .down_left
  else none

/-- Model of `get_key_for_bind` followed by `make_key_event` and the `if key:`
guard: the (zero- or one-element) list of key events a bind injects. -/
def keyevs (view : View) (b : Bind) : List Nat :=
  match view.key_for b with
  | some k => [k]
  | none => []

/-- One iteration of the browse-mode right-stick loop (injection.py lines
155-163): move the spell-targeting cursor if a spell with a target is
previewed. -/
def cursor_spell_step (view : View) (d : Int × Int) : View × List HostCall :=
  match view.cur_spell, view.cur_spell_target with
  | some _, some tgt =>
    let new : Point := ⟨tgt.x + d.1, tgt.y + d.2⟩
    if view.level.in_bounds new then
      ({ view with cur_spell_target := some new }, [.try_examine_tile new])
    else (view, [])
  | _, _ => (view, [])

/-- One iteration of the normal-mode right-stick loop (lines 282-301):
spell target, else deployment target, else tile examination near the
player. -/
def cursor_step_normal (view : View) (d : Int × Int) : View × List HostCall :=
  match view.cur_spell, view.cur_spell_target with
  | some _, some tgt =>
    let new : Point := ⟨tgt.x + d.1, tgt.y + d.2⟩
    if view.level.in_bounds new then
      ({ view with cur_spell_target := some new }, [.try_examine_tile new])
    else (view, [])
  | _, _ =>
    match view.deploy_target with
    | some dt =>
      let new : Point := ⟨dt.x + d.1, dt.y + d.2⟩
      if view.next_level.in_bounds new then
        ({ view with deploy_target := some new }, [.try_examine_tile new])
      else (view, [])
    | none =>
      if view.has_p1 then
        let target : Point := ⟨view.player.x + d.1, view.player.y + d.2⟩
        if view.level.in_bounds target then (view, [.try_examine_tile target])
        else (view, [])
      else (view, [])

/-- Result of a pipeline step. -/
structure InjectResult where
  ps : InjectState
  view : View
  ops : List PipeOp
  calls : List HostCall

/-- The browse-mode branch of `inject_controller_events` (lines 128-164). -/
def inject_browse (ps : InjectState) (view : View) (ctrl : ControllerState) (now : ℚ) :
    InjectResult :=
  if ctrl.button_just_pressed XboxButtons.A then
    let r := browse_confirm ps.browse view
    { ps := { ps with browse := r.1 }, view := r.2, ops := [.browse_confirm], calls := [] }
  else if ctrl.button_just_pressed XboxButtons.B then
    let r := browse_cancel ps.browse view
    { ps := { ps with browse := r.1 }, view := view, ops := [.browse_cancel], calls := r.2 }
  else if ctrl.button_just_pressed XboxButtons.RB ∧ ps.browse.mode = some BrowseKind.spells then
    let r := browse_cancel ps.browse view
    { ps := { ps with browse := r.1 }, view := view, ops := [.browse_cancel], calls := r.2 }
  else if ctrl.button_just_pressed XboxButtons.LB ∧ ps.browse.mode = some BrowseKind.items then
    let r := browse_cancel ps.browse view
    { ps := { ps with browse := r.1 }, view := view, ops := [.browse_cancel], calls := r.2 }
  else
    -- D-pad / left stick cycles the list
    let br := ps.browse_repeater.update (some ctrl.get_combined_direction) now
    let cyc := br.2.foldl
      (fun (acc : BrowseState × List PipeOp × List HostCall) d =>
        if d.2 < 0 then
          let r := browse_cycle acc.1 view (-1)
          (r.1, acc.2.1 ++ [.browse_cycle_op (-1)], acc.2.2 ++ r.2)
        else if d.2 > 0 then
          let r := browse_cycle acc.1 view 1
          (r.1, acc.2.1 ++ [.browse_cycle_op 1], acc.2.2 ++ r.2)
        else acc)
      (ps.browse, [], [])
    -- Right stick still moves the targeting cursor while browsing
    let rr := ps.right_repeater.update (some ctrl.curr_right_dir) now
    let stepped := rr.2.foldl
      (fun (acc : View × List HostCall) d =>
        let r := cursor_spell_step acc.1 d
        (r.1, acc.2 ++ r.2))
      (view, [])
    { ps := { ps with browse := cyc.1, browse_repeater := br.1, right_repeater := rr.1 }
      view := stepped.1
      ops := br.2.map PipeOp.repeater_browse ++ cyc.2.1 ++ rr.2.map PipeOp.repeater_cursor
      calls := cyc.2.2 ++ stepped.2 }

/-- The conditions under which the A button enters walk-target mode
(lines 170-176). -/
def walk_enter_cond (view : View) : Prop :=
  view.state = GState.level ∧ view.has_game = true ∧ view.cur_spell.isNone = true ∧
  view.deploy_target.isNone = true ∧ view.can_execute_inputs = true ∧
  view.has_p1 = true

instance (view : View) : Decidable (walk_enter_cond view) := by
  unfold walk_enter_cond
  infer_instance

/-- The normal-mode branch of `inject_controller_events` (lines 166-307):
the button → logical-action table, the conditional browse opens, and the
movement / cursor repeaters.  `fired` binds are recorded in evaluation
order; the three `return` statements of the source (walk-target entry and
the two `browse_open` calls) discard the `injected` list accumulated so
far, exactly as the code does. -/
def inject_normal (ps : InjectState) (view : View) (ctrl : ControllerState) (now : ℚ) :
    InjectResult :=
  let state := view.state
  if ctrl.button_just_pressed XboxButtons.A ∧ walk_enter_cond view then
    let r := walk_target_enter ps.next_spell_id ps.walk view
    { ps := { ps with walk := r.1, next_spell_id := ps.next_spell_id + 1 }
      view := r.2, ops := [.walk_enter], calls := [] }
  else
    let bA := if ctrl.button_just_pressed XboxButtons.A then [Bind.confirm] else []
    let bB := if ctrl.button_just_pressed XboxButtons.B then [Bind.abort] else []
    let bX := if ctrl.button_just_pressed XboxButtons.X then [Bind.pass] else []
    let bY := if ctrl.button_just_pressed XboxButtons.Y then [Bind.char] else []
    let bStart := if ctrl.button_just_pressed XboxButtons.START then [Bind.abort] else []
    let bBack := if ctrl.button_just_pressed XboxButtons.BACK then [Bind.help] else []
    let fired1 := bA ++ bB ++ bX ++ bY ++ bStart ++ bBack
    -- RB — spell browser or tab-target
    if ctrl.button_just_pressed XboxButtons.RB ∧ state = GState.level ∧
        view.has_game = true ∧ view.cur_spell.isNone = true ∧
        view.deploy_target.isNone = true then
      let r := browse_open ps.browse view .spells
      { ps := { ps with browse := r.1 }, view := view
        ops := fired1.map PipeOp.bind_key ++ [.browse_open_op .spells], calls := r.2 }
    else
      let bRB := if ctrl.button_just_pressed XboxButtons.RB then
          (if state = GState.level ∧ view.has_game = true then
            (if view.cur_spell.isSome then [Bind.tab] else [])
          else [Bind.next_examine_target])
        else []
      let fired2 := fired1 ++ bRB
      -- LB — item browser or prev examine target
      if ctrl.button_just_pressed XboxButtons.LB ∧ state = GState.level ∧
          view.has_game = true ∧ view.cur_spell.isNone = true ∧
          view.deploy_target.isNone = true then
        let r := browse_open ps.browse view .items
        { ps := { ps with browse := r.1 }, view := view
          ops := fired2.map PipeOp.bind_key ++ [.browse_open_op .items], calls := r.2 }
      else
        -- both remaining LB branches inject PREV_EXAMINE_TARGET
        let bLB := if ctrl.button_just_pressed XboxButtons.LB then
            [Bind.prev_examine_target] else []
        let bLS := if ctrl.button_just_pressed XboxButtons.L_STICK ∧
            state = GState.level ∧ view.has_game = true then [Bind.autopickup] else []
        let bRS := if ctrl.button_just_pressed XboxButtons.R_STICK then
            [Bind.threat] else []
        let bRT := if ctrl.rt_just_pressed ∧ state = GState.level ∧
            view.has_game = true then
            (if view.cur_spell.isSome then [Bind.confirm] else [Bind.interact])
          else []
        let bLT := if ctrl.lt_just_pressed ∧ state = GState.level ∧
            view.has_game = true then [Bind.reroll] else []
        let fired := fired2 ++ bLB ++ bLS ++ bRS ++ bRT ++ bLT
        -- directional input
        let lr := ps.left_repeater.update (some ctrl.get_combined_direction) now
        let moveKeys := lr.2.flatMap fun d =>
          match direction_to_key_bind d.1 d.2 with
          | some b => keyevs view b
          | none => []
        let injected := fired.flatMap (keyevs view) ++ moveKeys
        -- Right stick → cursor
        if state = GState.level ∧ view.has_game = true then
          let rr := ps.right_repeater.update (some ctrl.curr_right_dir) now
          let stepped := rr.2.foldl
            (fun (acc : View × List HostCall) d =>
              let r := cursor_step_normal acc.1 d
              (r.1, acc.2 ++ r.2))
            (view, [])
          { ps := { ps with left_repeater := lr.1, right_repeater := rr.1 }
            view := { stepped.1 with events := stepped.1.events ++ injected }
            ops := fired.map PipeOp.bind_key ++ lr.2.map PipeOp.repeater_move ++
              rr.2.map PipeOp.repeater_cursor
            calls := stepped.2 }
        else
          let rr := ps.right_repeater.update (some (0, 0)) now
          { ps := { ps with left_repeater := lr.1, right_repeater := rr.1 }
            view := { view with events := view.events ++ injected }
            ops := fired.map PipeOp.bind_key ++ lr.2.map PipeOp.repeater_move
            calls := [] }

/-- Model of `inject_controller_events(view)` (injection.py lines 96-307), from the
consistency pass onward. -/
def inject_controller_events (ps : InjectState) (view : View) (ctrl : ControllerState)
    (now : ℚ) : InjectResult :=
  let state := view.state
  -- Auto-cancel browse if we left level or spell got cleared
  let c1 : InjectState × List PipeOp :=
    if is_browsing ps.browse ∧ state ≠ GState.level then
      ({ ps with browse := clear_browse ps.browse }, [.clear_browse])
    else if is_browsing ps.browse ∧ view.cur_spell.isNone then
      ({ ps with browse := clear_browse ps.browse }, [.clear_browse])
    else (ps, [])
  -- Auto-cancel walk-target if we left level state
  let c2 : InjectState × View × List PipeOp × List HostCall :=
    if is_walk_target_active c1.1.walk ∧ state ≠ GState.level then
      let r := walk_target_exit c1.1.walk view false
      ({ c1.1 with walk := r.walk }, r.view, c1.2 ++ [.walk_exit false], r.calls)
    else (c1.1, view, c1.2, [])
  let ps2 := c2.1
  let view2 := c2.2.1
  let ops2 := c2.2.2.1
  let calls2 := c2.2.2.2
  -- walk-target mode: consumes all input this frame
  if is_walk_target_active ps2.walk then
    if ¬ctrl.button_held XboxButtons.A then
      let r := walk_target_exit ps2.walk view2 true
      { ps := { ps2 with walk := r.walk }, view := r.view,
        ops := ops2 ++ [.walk_exit true], calls := calls2 ++ r.calls }
    else if ctrl.button_just_pressed XboxButtons.B then
      let r := walk_target_exit ps2.walk view2 false
      { ps := { ps2 with walk := r.walk }, view := r.view,
        ops := ops2 ++ [.walk_exit false], calls := calls2 ++ r.calls }
    else
      let r := walk_target_update ps2.walk view2 ctrl
      { ps := { ps2 with walk := r.1 }, view := r.2.1,
        ops := ops2 ++ [.walk_update], calls := calls2 ++ r.2.2 }
  -- browse mode: consumes all input this frame
  else if is_browsing ps2.browse ∧ state = GState.level then
    let r := inject_browse ps2 view2 ctrl now
    { r with ops := ops2 ++ r.ops, calls := calls2 ++ r.calls }
  else
    let r := inject_normal ps2 view2 ctrl now
    { r with ops := ops2 ++ r.ops, calls := calls2 ++ r.calls }

/-- Helper: `walk_target_exit` never touches the host event queue. -/
lemma walk_target_exit_events (ws : WalkState) (view : View) (dw : Bool) :
    (walk_target_exit ws view dw).view.events = view.events := by
  unfold walk_target_exit
  cases dw <;> cases hsp : ws.step_spell <;> cases htg : view.cur_spell_target <;>
    first
      | rfl
      | (dsimp only; split_ifs <;> rfl)

/-- Helper: `walk_target_update` never touches the host event queue. -/
lemma walk_target_update_events (ws : WalkState) (view : View) (ctrl : ControllerState) :
    (walk_target_update ws view ctrl).2.1.events = view.events := by
  unfold walk_target_update
  split_ifs <;>
    first
      | rfl
      | (dsimp only; split_ifs <;> rfl)

/-- C4: when the walk-target overlay is active as the pipeline reaches the
modal-precedence step (it is active, the view is in the level state, and —
per the mutual-exclusion invariant of the two overlays — no browse session
exists), the frame performs exactly one pipeline operation, a walk-target
one (`exit(do_walk=true)` on A released, `exit(do_walk=false)` on B
pressed, else `update`): no browse operation runs, the browse state and
all three repeaters are untouched, and no key event is injected. -/
theorem inject_walk_modal_exclusive (ps : InjectState) (view : View)
    (ctrl : ControllerState) (now : ℚ)
    (hwalk : ps.walk.active = true) (hstate : view.state = GState.level)
    (hbrowse : ps.browse.mode = none) :
    ((inject_controller_events ps view ctrl now).ops = [PipeOp.walk_exit true] ∨
     (inject_controller_events ps view ctrl now).ops = [PipeOp.walk_exit false] ∨
     (inject_controller_events ps view ctrl now).ops = [PipeOp.walk_update]) ∧
    (inject_controller_events ps view ctrl now).ps.browse = ps.browse ∧
    (inject_controller_events ps view ctrl now).ps.left_repeater = ps.left_repeater ∧
    (inject_controller_events ps view ctrl now).ps.right_repeater = ps.right_repeater ∧
    (inject_controller_events ps view ctrl now).ps.browse_repeater = ps.browse_repeater ∧
    (inject_controller_events ps view ctrl now).view.events = view.events := by
  have hstep : inject_controller_events ps view ctrl now =
      (if ¬ctrl.button_held XboxButtons.A then
        { ps := { ps with walk := (walk_target_exit ps.walk view true).walk }
          view := (walk_target_exit ps.walk view true).view
          ops := [.walk_exit true]
          calls := (walk_target_exit ps.walk view true).calls }
      else if ctrl.button_just_pressed XboxButtons.B then
        { ps := { ps with walk := (walk_target_exit ps.walk view false).walk }
          view := (walk_target_exit ps.walk view false).view
          ops := [.walk_exit false]
          calls := (walk_target_exit ps.walk view false).calls }
      else
        { ps := { ps with walk := (walk_target_update ps.walk view ctrl).1 }
          view := (walk_target_update ps.walk view ctrl).2.1
          ops := [.walk_update]
          calls := (walk_target_update ps.walk view ctrl).2.2 }) := by
    unfold inject_controller_events
    simp [is_browsing, hbrowse, hstate, is_walk_target_active, hwalk]
  rw [hstep]
  by_cases hA : ctrl.button_held XboxButtons.A = true
  · rw [if_neg (not_not_intro hA)]
    by_cases hB : ctrl.button_just_pressed XboxButtons.B = true
    · rw [if_pos hB]
      exact ⟨Or.inr (Or.inl rfl), rfl, rfl, rfl, rfl,
        walk_target_exit_events ps.walk view false⟩
    · rw [if_neg hB]
      exact ⟨Or.inr (Or.inr rfl), rfl, rfl, rfl, rfl,
        walk_target_update_events ps.walk view ctrl⟩
  · rw [if_pos hA]
    exact ⟨Or.inl rfl, rfl, rfl, rfl, rfl, walk_target_exit_events ps.walk view true⟩

/-- The pipeline state of an active walk-target session opened on
`c1View`. -/
def c4PS : InjectState := { InjectState.initState with walk := c1Walk }

/-- Witness for C4 at a concrete frame: a never-pressed controller (A not
held) with the walk-target session of `c1View` active performs exactly
one walk-target operation and leaves everything else alone. -/
theorem inject_walk_modal_exclusive_witness :
    c4PS.walk.active = true ∧ c1View.state = GState.level ∧
    c4PS.browse.mode = none ∧
    (((inject_controller_events c4PS c1View ControllerState.initState 0).ops =
        [PipeOp.walk_exit true] ∨
      (inject_controller_events c4PS c1View ControllerState.initState 0).ops =
        [PipeOp.walk_exit false] ∨
      (inject_controller_events c4PS c1View ControllerState.initState 0).ops =
        [PipeOp.walk_update]) ∧
     (inject_controller_events c4PS c1View ControllerState.initState 0).ps.browse =
       c4PS.browse ∧
     (inject_controller_events c4PS c1View ControllerState.initState 0).ps.left_repeater =
       c4PS.left_repeater ∧
     (inject_controller_events c4PS c1View ControllerState.initState 0).ps.right_repeater =
       c4PS.right_repeater ∧
     (inject_controller_events c4PS c1View ControllerState.initState 0).ps.browse_repeater =
       c4PS.browse_repeater ∧
     (inject_controller_events c4PS c1View ControllerState.initState 0).view.events =
       c1View.events) :=
  ⟨rfl, rfl, rfl,
   inject_walk_modal_exclusive c4PS c1View ControllerState.initState 0 rfl rfl rfl⟩

end RW2
